import Mathlib

/-!
Verification of the portfolio backend API (src/main.py, src/schemas.py)
against its natural-language specification.

The Python code is shallowly embedded: JSON values become the inductive
type `JVal`, documents (Python dicts) become association lists, HTTP
responses from the external GitHub API become a `fetch` oracle given as a
function argument, and the document store becomes an explicit `Store`
value threaded through the operations.  Routines that can raise a Python
exception at runtime (bad JSON shapes fed to `int(...)`, `.get(...)` on a
non-dict, iterating a non-iterable) return `Except` / `Option` with a
distinguished `crash` outcome.
-/

/-- A JSON value, as produced by `resp.json()` and stored in documents. -/
inductive JVal where
  | null : JVal
  | bool : Bool → JVal
  | num : Int → JVal
  | str : String → JVal
  | arr : List JVal → JVal
  | obj : List (String × JVal) → JVal
deriving Repr

mutual

/-- Structural equality of JSON values (Python `==` on parsed JSON). -/
def JVal.beq : JVal → JVal → Bool
  | .null, .null => true
  | .bool a, .bool b => a == b
  | .num a, .num b => a == b
  | .str a, .str b => a == b
  | .arr xs, .arr ys => JVal.beqList xs ys
  | .obj xs, .obj ys => JVal.beqFields xs ys
  | _, _ => false

def JVal.beqList : List JVal → List JVal → Bool
  | [], [] => true
  | x :: xs, y :: ys => JVal.beq x y && JVal.beqList xs ys
  | _, _ => false

def JVal.beqFields : List (String × JVal) → List (String × JVal) → Bool
  | [], [] => true
  | (k, v) :: xs, (l, w) :: ys => k == l && JVal.beq v w && JVal.beqFields xs ys
  | _, _ => false

end

/-- A document: a Python dict with string keys (unique by construction in
Python; modelled as an association list where only the first occurrence of
a key is significant). -/
abbrev Doc := List (String × JVal)

namespace Doc

/-- `d[k]` lookup: value at the first occurrence of key `k`. -/
def lookup (d : Doc) (k : String) : Option JVal :=
  match d with
  | [] => none
  | (k', v) :: rest => if k' = k then some v else lookup rest k

/-- Python `d.get(k, default)`. -/
def getD (d : Doc) (k : String) (default : JVal) : JVal :=
  (d.lookup k).getD default

/-- Python `k in d`. -/
def hasKey (d : Doc) (k : String) : Bool :=
  (d.lookup k).isSome

/-- Python `d.pop(k)` (the removal part): deletes the first binding of `k`. -/
def erase (d : Doc) (k : String) : Doc :=
  match d with
  | [] => []
  | (k', v) :: rest => if k' = k then rest else (k', v) :: erase rest k

/-- Python `d[k] = v`: overwrites an existing binding in place, otherwise
appends the new binding at the end. -/
def set (d : Doc) (k : String) (v : JVal) : Doc :=
  match d with
  | [] => [(k, v)]
  | (k', v') :: rest => if k' = k then (k, v) :: rest else (k', v') :: set rest k v

/-- The keys of a document, in order. -/
def keys (d : Doc) : List String := d.map Prod.fst

end Doc

/-- Python `str(...)` applied to a stored identifier value.  Identifier
values in practice are scalar ObjectIds; the rendering of container values
(never used as identifiers) is abbreviated. -/
def pyStr : JVal → String
  | .null => "None"
  | .bool true => "True"
  | .bool false => "False"
  | .num n => toString n
  | .str s => s
  | .arr _ => "<list>"
  | .obj _ => "<dict>"

/-- `serialize_doc` on a genuine dict (src/main.py lines 28-34, non-falsy
branch): if `_id` is present, pop it and write `id = str(_id)` (Python
dict assignment: overwrite in place if `id` exists, else append). -/
def serializeDocSome (d : Doc) : Doc :=
  if d.hasKey "_id" then
    (d.erase "_id").set "id" (.str (pyStr (d.getD "_id" .null)))
  else d

/-- `serialize_doc` (src/main.py lines 28-34).  A falsy argument (`None`,
or the empty dict) is returned as-is; for the empty dict this coincides
with the `_id`-absent branch, so only `None` needs a separate case. -/
def serialize_doc : Option Doc → Option Doc
  | none => none
  | some d => some (serializeDocSome d)

/-! ## Storage access layer

`database.py` (imported by src/main.py as `from database import db,
create_document, get_documents`) is not part of the sources; the two
storage operations are modelled from the spec (section 4.2). -/

/-- The document store: a map from collection name to the documents it
holds, in the store's natural order.  A missing collection is the empty
list. -/
structure Store where
  colls : String → List Doc

/-- Whether a document matches an equality filter: every key of the
filter is present in the document with an equal value (spec 4.2: "an
equality filter (on zero or more fields)"). -/
def matchesFilter (filt : Doc) (d : Doc) : Bool :=
  filt.all fun kv =>
    match d.lookup kv.1 with
    | some w => JVal.beq w kv.2
    | none => false

/-- Modelled from the spec: `database.get_documents` (section 4.2
`query`), absent from src/ — "returns up to `limit` documents matching an
equality filter ... in the store's natural order. A missing/absent
collection returns an empty list, never an error." -/
def get_documents (store : Store) (coll : String) (filt : Doc) (limit : Int) : List Doc :=
  ((store.colls coll).filter (matchesFilter filt)).take limit.toNat

/-- Modelled from the spec: `database.create_document` (section 4.2
`create`), absent from src/ — "persists the document, assigns a unique
identifier, returns it."  The identifier is stamped by the storage layer
into the document's internal `_id` field; this model assigns the position
in the collection's natural order, which is unique because documents are
never deleted. -/
def create_document (store : Store) (coll : String) (d : Doc) : String × Store :=
  let ident := toString (store.colls coll).length
  (ident,
   ⟨fun c => if c = coll then store.colls coll ++ [d.set "_id" (.str ident)]
             else store.colls c⟩)

/-! ## HTTP route layer: list/read endpoints (src/main.py lines 69-157) -/

/-- `GET /api/projects` (src/main.py lines 69-75). -/
def list_projects (store : Store) (featured : Option Bool := none) (limit : Int := 50) : List Doc :=
  let query : Doc := match featured with
    | some b => [("featured", .bool b)]
    | none => []
  (get_documents store "project" query limit).map serializeDocSome

/-- `GET /api/testimonials` (src/main.py lines 85-88). -/
def list_testimonials (store : Store) (limit : Int := 50) : List Doc :=
  (get_documents store "testimonial" [] limit).map serializeDocSome

/-- `GET /api/guestbook` (src/main.py lines 98-101). -/
def list_guestbook (store : Store) (limit : Int := 100) : List Doc :=
  (get_documents store "guestbookentry" [] limit).map serializeDocSome

/-- `GET /api/bucket` (src/main.py lines 111-114). -/
def list_bucket (store : Store) (limit : Int := 100) : List Doc :=
  (get_documents store "bucketitem" [] limit).map serializeDocSome

/-- `GET /api/uses` (src/main.py lines 124-127). -/
def list_uses (store : Store) (limit : Int := 200) : List Doc :=
  (get_documents store "useitem" [] limit).map serializeDocSome

/-- `GET /api/blog` (src/main.py lines 137-143).  The FastAPI query
parameter `published: Optional[bool] = True` defaults to `True` when the
request carries no explicit `published` value. -/
def list_blog (store : Store) (published : Option Bool := some true) (limit : Int := 50) : List Doc :=
  let query : Doc := match published with
    | some b => [("published", .bool b)]
    | none => []
  (get_documents store "blogpost" query limit).map serializeDocSome

/-- An HTTP-level error outcome: either FastAPI's `HTTPException` with a
status code and detail body, or an uncaught Python exception (rendered by
the framework as a 500). -/
inductive HErr where
  | http : Nat → String → HErr
  | crash : HErr
deriving Repr

/-- `GET /api/blog/{slug}` (src/main.py lines 146-151). -/
def get_blog (store : Store) (slug : String) : Except HErr Doc :=
  match get_documents store "blogpost" [("slug", .str slug)] 1 with
  | [] => .error (.http 404 "Post not found")
  | d :: _ => .ok (serializeDocSome d)

/-! ## Schema/validation layer for ContactMessage

src/schemas.py declares `ContactMessage(name: str, email: EmailStr,
message: str, subject: Optional[str], source: Optional[str])`.  The
validation machinery itself (pydantic) is library code outside src/, so
its behaviour is modelled from the spec (section 4.1): "either produce a
validated, normalized value matching the entity's field set and types, or
fail with a `ValidationError` enumerating every field violation (missing
required field, wrong type, ..., malformed email)". -/

/-- Modelled from the spec: syntactic email validity as checked by
pydantic's `EmailStr` (library code outside src/) — a single `@` between a
nonempty local part and a nonempty dotted domain, no spaces. -/
def validEmail (s : String) : Bool :=
  let cs := s.toList
  if cs.count '@' = 1 then
    let l := cs.takeWhile (· ≠ '@')
    let d := (cs.dropWhile (· ≠ '@')).drop 1
    !l.isEmpty && !d.isEmpty && d.contains '.' &&
      (d.headD '.') != '.' && (d.getLastD '.') != '.' && !(cs.contains ' ')
  else false

/-- Checks one required string field, returning the validated binding or
the field-level violations it contributes. -/
def checkRequiredStr (payload : Doc) (field : String) : Except (List String) (String × JVal) :=
  match payload.lookup field with
  | none => .error [field ++ ": field required"]
  | some (.str s) => .ok (field, .str s)
  | some _ => .error [field ++ ": str type expected"]

/-- Checks one optional string field (default `None`). -/
def checkOptionalStr (payload : Doc) (field : String) : Except (List String) (String × JVal) :=
  match payload.lookup field with
  | none => .ok (field, .null)
  | some .null => .ok (field, .null)
  | some (.str s) => .ok (field, .str s)
  | some _ => .error [field ++ ": str type expected"]

/-- The list of violations a field check contributes. -/
def errsOf : Except (List String) (String × JVal) → List String
  | .error es => es
  | .ok _ => []

/-- Modelled from the spec: validation of a raw `ContactMessage` payload
(section 4.1, field set from src/schemas.py lines 69-74).  Every field
violation is enumerated; on success the normalized document is produced. -/
def validateContact (payload : Doc) : Except (List String) Doc :=
  let nameC := checkRequiredStr payload "name"
  let emailC : Except (List String) (String × JVal) :=
    match checkRequiredStr payload "email" with
    | .ok (_, .str e) =>
      if validEmail e then .ok ("email", .str e)
      else .error ["email: value is not a valid email address"]
    | r => r
  let messageC := checkRequiredStr payload "message"
  let subjectC := checkOptionalStr payload "subject"
  let sourceC := checkOptionalStr payload "source"
  match nameC, emailC, messageC, subjectC, sourceC with
  | .ok n, .ok e, .ok m, .ok sj, .ok sc => .ok [n, e, m, sj, sc]
  | _, _, _, _, _ =>
    .error (errsOf nameC ++ errsOf emailC ++ errsOf messageC ++
            errsOf subjectC ++ errsOf sourceC)

/-- `POST /api/contact` (src/main.py lines 161-164): validate the payload
(FastAPI runs the `ContactMessage` model before the handler body), then
`create_document` and answer `{id, status: "received"}`.  The resulting
store is returned alongside the response; on validation failure the store
is the one passed in. -/
def contact (store : Store) (payload : Doc) : Except (List String) Doc × Store :=
  match validateContact payload with
  | .error errs => (.error errs, store)
  | .ok validated =>
    let (ident, store') := create_document store "contactmessage" validated
    (.ok [("id", .str ident), ("status", .str "received")], store')

/-! ## The `/test` diagnostic endpoint (src/main.py lines 42-65) -/

/-- The response body of `GET /test`. -/
structure TestResponse where
  backend : String
  database : String
  database_url : String
  database_name : String
  connection_status : String
  collections : List String
deriving Repr, DecidableEq

/-- The outcome of the database dependency as seen by `/test`: `none`
when `db is None`, `some (.error e)` when `list_collection_names()`
raises with message `e`, `some (.ok names)` when it returns. -/
abbrev DbOutcome := Option (Except String (List String))

/-- `GET /test` (src/main.py lines 42-65).  `databaseUrl` and
`databaseName` are the values of the environment variables (`none` when
unset; Python's truthiness also treats the empty string as unset). -/
def test_database (databaseUrl databaseName : Option String) (db : DbOutcome) : TestResponse :=
  let base : TestResponse :=
    { backend := "✅ Running"
      database := "❌ Not Available"
      database_url :=
        match databaseUrl with
        | some u => if u = "" then "❌ Not Set" else "✅ Set"
        | none => "❌ Not Set"
      database_name :=
        match databaseName with
        | some n => if n = "" then "❌ Not Set" else n
        | none => "❌ Not Set"
      connection_status := "Not Connected"
      collections := [] }
  match db with
  | none => base
  | some (.ok names) =>
    { base with
      database := "✅ Connected & Working"
      connection_status := "Connected"
      collections := names.take 10 }
  | some (.error e) =>
    { base with database := "⚠️ Connected but error: " ++ e.take 80 }

/-! ## External stats layer (src/main.py lines 167-232)

The external GitHub API is a black box: it is modelled as a `fetch`
oracle mapping a request URL to the response obtained for it (the
`headers` and `timeout` arguments of `requests.get` do not influence
which logical response a fixed oracle yields, so they are not part of the
model).  Each operation returns, besides its result, the list of URLs it
fetched, so that "no further fetch is attempted" is provable. -/

/-- An upstream HTTP response: its status code, its raw body text
(`resp.text`), and its parsed JSON body (`resp.json()`). -/
structure HttpResp where
  status : Nat
  text : String
  json : JVal
deriving Repr

def GITHUB_API : String := "https://api.github.com"

/-- The URL of the profile fetch in `github_stats` (src/main.py line 179). -/
def userURL (user : String) : String :=
  GITHUB_API ++ "/users/" ++ user

/-- The URL of the repo-list fetch in `github_stats` (src/main.py lines
184-188): fixed `per_page=100&sort=updated`. -/
def statsReposURL (user : String) : String :=
  GITHUB_API ++ "/users/" ++ user ++ "/repos?per_page=100&sort=updated"

/-- The URL of the repo-list fetch in `github_repos` (src/main.py line
210), with the already-capped page size interpolated. -/
def reposURL (user : String) (perPage : Int) : String :=
  GITHUB_API ++ "/users/" ++ user ++ "/repos?per_page=" ++ toString perPage ++ "&sort=updated"

/-- Python `int(v)` on a JSON value: `none` is a raised exception. -/
def pyInt : JVal → Option Int
  | .num n => some n
  | .bool b => some (if b then 1 else 0)
  | .str s => s.toInt?
  | _ => none

/-- Python `for r in v`: the sequence of items iteration yields, `none`
when `v` is not iterable (a dict yields its keys, a string its
characters). -/
def pyIterate : JVal → Option (List JVal)
  | .arr xs => some xs
  | .obj fs => some (fs.map fun kv => .str kv.1)
  | .str s => some (s.toList.map fun c => .str (String.singleton c))
  | _ => none

/-- One step of the stars loop (src/main.py line 192):
`int(r.get("stargazers_count", 0))`; `none` when `r` is not a dict or the
value cannot be coerced. -/
def starOf : JVal → Option Int
  | .obj r => pyInt (Doc.getD r "stargazers_count" (.num 0))
  | _ => none

/-- The stars accumulation over `repos_resp.json()` (src/main.py lines
189-192). -/
def sumStars (j : JVal) : Option Int := do
  let items ← pyIterate j
  let counts ← items.mapM starOf
  pure counts.sum

/-- The success payload of `GET /api/stats/github` (src/main.py lines
195-199): `followers` and `public_repos` are passed through from the
profile JSON exactly as `data.get(...)` returns them. -/
structure StatsOut where
  followers : JVal
  public_repos : JVal
  stars : Int
deriving Repr

/-- `GET /api/stats/github` (src/main.py lines 171-199): fetch the
profile; a non-200 status raises `HTTPException(status, body)` before any
second fetch; otherwise fetch the repo list, summing stars only when that
fetch returned 200 (else `stars = 0`), and extract
`followers`/`public_repos` from the profile JSON. -/
def github_stats (fetch : String → HttpResp) (user : String) :
    Except HErr StatsOut × List String :=
  let userResp := fetch (userURL user)
  if userResp.status ≠ 200 then
    (.error (.http userResp.status userResp.text), [userURL user])
  else
    let reposResp := fetch (statsReposURL user)
    let trace := [userURL user, statsReposURL user]
    let starsC : Option Int :=
      if reposResp.status = 200 then sumStars reposResp.json else some 0
    match starsC, userResp.json with
    | some stars, .obj data =>
      (.ok { followers := Doc.getD data "followers" (.num 0)
             public_repos := Doc.getD data "public_repos" (.num 0)
             stars := stars }, trace)
    | _, _ => (.error .crash, trace)

/-- The per-repository projection of `github_repos` (src/main.py lines
218-231): exactly nine fields, each read with `r.get(...)` (default
`None`, except `topics` which defaults to `[]`); `none` when `r` is not a
dict. -/
def projectRepo : JVal → Option Doc
  | .obj r => some
      [("name", Doc.getD r "name" .null),
       ("full_name", Doc.getD r "full_name" .null),
       ("description", Doc.getD r "description" .null),
       ("html_url", Doc.getD r "html_url" .null),
       ("language", Doc.getD r "language" .null),
       ("stargazers_count", Doc.getD r "stargazers_count" .null),
       ("forks_count", Doc.getD r "forks_count" .null),
       ("topics", Doc.getD r "topics" (.arr [])),
       ("homepage", Doc.getD r "homepage" .null)]
  | _ => none

/-- `GET /api/github/repos` (src/main.py lines 202-232): one fetch with
`per_page = min(limit, 100)`; a non-200 status raises
`HTTPException(status, body)`; otherwise every element of the JSON body
is mapped through the nine-field projection. -/
def github_repos (fetch : String → HttpResp) (user : String) (limit : Int := 12) :
    Except HErr (List Doc) × List String :=
  let url := reposURL user (min limit 100)
  let resp := fetch url
  if resp.status ≠ 200 then
    (.error (.http resp.status resp.text), [url])
  else
    match pyIterate resp.json >>= (·.mapM projectRepo) with
    | some mapped => (.ok mapped, [url])
    | none => (.error .crash, [url])

/-! ## Helper lemmas -/

theorem Doc.lookup_set_self (d : Doc) (k : String) (v : JVal) :
    (Doc.set d k v).lookup k = some v := by
  induction d with
  | nil => simp [Doc.set, Doc.lookup]
  | cons hd tl ih =>
    by_cases h : hd.1 = k
    · simp [Doc.set, Doc.lookup, h]
    · cases hd with
      | mk k' v' => simp only at h; simp [Doc.set, Doc.lookup, h, ih]

theorem Doc.keys_cons (p : String × JVal) (d : Doc) :
    Doc.keys (p :: d) = p.1 :: Doc.keys d := rfl

theorem Doc.lookup_set_ne (d : Doc) (k k' : String) (v : JVal) (h : k ≠ k') :
    (Doc.set d k' v).lookup k = d.lookup k := by
  induction d with
  | nil => simp [Doc.set, Doc.lookup, Ne.symm h]
  | cons hd tl ih =>
    by_cases h2 : hd.1 = k'
    · cases hd with
      | mk a b =>
        simp only at h2; subst h2
        simp [Doc.set, Doc.lookup, h, Ne.symm h]
    · cases hd with
      | mk a b => simp only at h2; simp [Doc.set, Doc.lookup, h2, ih]

theorem Doc.lookup_erase_ne (d : Doc) (k k' : String) (h : k ≠ k') :
    (Doc.erase d k').lookup k = d.lookup k := by
  induction d with
  | nil => simp [Doc.erase, Doc.lookup]
  | cons hd tl ih =>
    by_cases h2 : hd.1 = k'
    · cases hd with
      | mk a b =>
        simp only at h2; subst h2
        simp [Doc.erase, Doc.lookup, Ne.symm h]
    · cases hd with
      | mk a b => simp only at h2; simp [Doc.erase, Doc.lookup, h2, ih]

theorem Doc.lookup_eq_none_of_not_mem_keys (d : Doc) (k : String) (h : k ∉ d.keys) :
    d.lookup k = none := by
  induction d with
  | nil => simp [Doc.lookup]
  | cons hd tl ih =>
    rw [Doc.keys_cons] at h
    have h1 : hd.1 ≠ k := fun he => h (by rw [he]; exact List.mem_cons_self _ _)
    have h2 : k ∉ Doc.keys tl := fun hm => h (List.mem_cons_of_mem _ hm)
    simp only [Doc.lookup]
    rw [if_neg h1]
    exact ih h2

theorem Doc.lookup_erase_self (d : Doc) (k : String) (h : d.keys.Nodup) :
    (Doc.erase d k).lookup k = none := by
  induction d with
  | nil => simp [Doc.erase, Doc.lookup]
  | cons hd tl ih =>
    rw [Doc.keys_cons, List.nodup_cons] at h
    by_cases h2 : hd.1 = k
    · subst h2
      simp only [Doc.erase, if_pos rfl]
      exact Doc.lookup_eq_none_of_not_mem_keys tl hd.1 h.1
    · simp only [Doc.erase, Doc.lookup, if_neg h2]
      exact ih h.2

theorem lookup_serializeDocSome_ne (d : Doc) (k : String)
    (h1 : k ≠ "_id") (h2 : k ≠ "id") :
    (serializeDocSome d).lookup k = d.lookup k := by
  unfold serializeDocSome
  by_cases h : d.hasKey "_id"
  · simp [h, Doc.lookup_set_ne _ _ _ _ h2, Doc.lookup_erase_ne _ _ _ h1]
  · simp [h]

theorem JVal.beq_bool_iff (w : JVal) (b : Bool) :
    JVal.beq w (.bool b) = true ↔ w = .bool b := by
  cases w <;> simp [JVal.beq]

theorem JVal.beq_str_iff (w : JVal) (s : String) :
    JVal.beq w (.str s) = true ↔ w = .str s := by
  cases w <;> simp [JVal.beq]

theorem matchesFilter_singleton (k : String) (v : JVal) (d : Doc) :
    matchesFilter [(k, v)] d = true ↔
      ∃ w, d.lookup k = some w ∧ JVal.beq w v = true := by
  simp only [matchesFilter, List.all_cons, List.all_nil, Bool.and_true]
  cases h : d.lookup k <;> simp

theorem length_get_documents_le (s : Store) (c : String) (f : Doc) (l : Int) :
    (get_documents s c f l).length ≤ l.toNat := by
  simp only [get_documents, List.length_take]
  exact min_le_left _ _

theorem mem_get_documents {s : Store} {c : String} {f : Doc} {l : Int} {d : Doc}
    (h : d ∈ get_documents s c f l) :
    d ∈ s.colls c ∧ matchesFilter f d = true := by
  unfold get_documents at h
  have h2 := List.mem_of_mem_take h
  exact ⟨(List.mem_filter.mp h2).1, (List.mem_filter.mp h2).2⟩

theorem mapM_option_total {α β : Type} (f : α → Option β) (xs : List α)
    (h : ∀ x ∈ xs, (f x).isSome) :
    ∃ out, xs.mapM f = some out ∧ out.length = xs.length ∧
      ∀ y ∈ out, ∃ x ∈ xs, f x = some y := by
  induction xs with
  | nil => exact ⟨[], by rw [List.mapM_nil]; rfl, rfl, by simp⟩
  | cons hd tl ih =>
    obtain ⟨v, hv⟩ := Option.isSome_iff_exists.mp (h hd (List.mem_cons_self _ _))
    obtain ⟨out, ho, hl, hm⟩ := ih fun x hx => h x (List.mem_cons_of_mem _ hx)
    refine ⟨v :: out, ?_, by simp [hl], ?_⟩
    · show List.mapM f (hd :: tl) = some (v :: out)
      rw [List.mapM_cons, hv, ho]
      rfl
    · intro y hy
      rcases List.mem_cons.mp hy with h1 | h1
      · exact ⟨hd, List.mem_cons_self _ _, h1 ▸ hv⟩
      · obtain ⟨x, hx, hfx⟩ := hm y h1
        exact ⟨x, List.mem_cons_of_mem _ hx, hfx⟩

/-- Specification-side description of a repository's star count `n`: the
repository is a JSON object whose `stargazers_count` field, when present,
is the integer `n`, and `n = 0` when the field is missing. -/
def starRel (r : JVal) (n : Int) : Prop :=
  ∃ fs, r = .obj fs ∧
    (Doc.lookup fs "stargazers_count" = some (.num n) ∨
     (Doc.lookup fs "stargazers_count" = none ∧ n = 0))

theorem starOf_of_starRel {r : JVal} {n : Int} (h : starRel r n) :
    starOf r = some n := by
  obtain ⟨fs, rfl, h2 | ⟨h2, rfl⟩⟩ := h
  · simp [starOf, Doc.getD, h2, pyInt]
  · simp [starOf, Doc.getD, h2, pyInt]

theorem mapM_starOf {items : List JVal} {counts : List Int}
    (h : List.Forall₂ starRel items counts) :
    items.mapM starOf = some counts := by
  induction h with
  | nil => rfl
  | @cons r n rs ns h1 _ ih =>
    show List.mapM starOf (r :: rs) = some (n :: ns)
    rw [List.mapM_cons, starOf_of_starRel h1, ih]
    rfl

theorem keys_projectRepo {r : JVal} {m : Doc} (h : projectRepo r = some m) :
    Doc.keys m = ["name", "full_name", "description", "html_url", "language",
                  "stargazers_count", "forks_count", "topics", "homepage"] := by
  cases r <;> simp [projectRepo] at h
  subst h
  rfl

/-! ## Claim theorems -/

/-- C6, counterexample: `serialize_doc` does not leave "every other field
unchanged" — a document that already carries an `id` field alongside the
internal `_id` has that `id` field overwritten by the stringified
identifier (Python `d["id"] = str(d.pop("_id"))` clobbers it). -/
theorem serialize_doc_clobbers_id :
    Doc.lookup [("_id", .str "507f1f77"), ("id", .str "legacy"), ("a", .num 1)] "id"
      = some (.str "legacy") ∧
    serialize_doc (some [("_id", .str "507f1f77"), ("id", .str "legacy"), ("a", .num 1)])
      = some [("id", .str "507f1f77"), ("a", .num 1)] ∧
    Doc.lookup [("id", .str "507f1f77"), ("a", .num 1)] "id" = some (.str "507f1f77") ∧
    (JVal.str "507f1f77") ≠ (JVal.str "legacy") := by
  refine ⟨rfl, rfl, rfl, ?_⟩
  simp

/-- C6 (amended): serialization passes a null document through unchanged
and a document without an internal `_id` field through unchanged; when
`_id` is present it is replaced by a public string field `id` holding the
stringified identifier (`_id` itself disappears, for genuine dicts, i.e.
documents without duplicate keys), every field other than `_id` and `id`
is left unchanged — but a pre-existing `id` field is overwritten — and
the transformation is applied to every document returned by every read
endpoint. -/
theorem serialize_doc_spec (d : Doc) (k : String) (store : Store)
    (featured published : Option Bool) (limit : Int) (slug : String) :
    serialize_doc none = none ∧
    (Doc.hasKey d "_id" = false → serialize_doc (some d) = some d) ∧
    (Doc.hasKey d "_id" = true →
      Doc.lookup (serializeDocSome d) "id"
        = some (.str (pyStr (Doc.getD d "_id" .null))) ∧
      ((Doc.keys d).Nodup → Doc.lookup (serializeDocSome d) "_id" = none)) ∧
    (k ≠ "_id" → k ≠ "id" →
      Doc.lookup (serializeDocSome d) k = Doc.lookup d k) ∧
    (∀ x ∈ list_projects store featured limit, ∃ d', x = serializeDocSome d') ∧
    (∀ x ∈ list_testimonials store limit, ∃ d', x = serializeDocSome d') ∧
    (∀ x ∈ list_guestbook store limit, ∃ d', x = serializeDocSome d') ∧
    (∀ x ∈ list_bucket store limit, ∃ d', x = serializeDocSome d') ∧
    (∀ x ∈ list_uses store limit, ∃ d', x = serializeDocSome d') ∧
    (∀ x ∈ list_blog store published limit, ∃ d', x = serializeDocSome d') ∧
    (∀ out, get_blog store slug = .ok out → ∃ d', out = serializeDocSome d') := by
  refine ⟨rfl, ?_, ?_, ?_, ?_, ?_, ?_, ?_, ?_, ?_, ?_⟩
  · intro h
    simp [serialize_doc, serializeDocSome, h]
  · intro h
    constructor
    · simp only [serializeDocSome, h, if_true]
      exact Doc.lookup_set_self _ _ _
    · intro hnd
      simp only [serializeDocSome, h, if_true]
      rw [Doc.lookup_set_ne _ _ _ _ (by decide)]
      exact Doc.lookup_erase_self _ _ hnd
  · exact fun h1 h2 => lookup_serializeDocSome_ne d k h1 h2
  · intro x hx
    obtain ⟨d', _, h⟩ := List.mem_map.mp hx
    exact ⟨d', h.symm⟩
  · intro x hx
    obtain ⟨d', _, h⟩ := List.mem_map.mp hx
    exact ⟨d', h.symm⟩
  · intro x hx
    obtain ⟨d', _, h⟩ := List.mem_map.mp hx
    exact ⟨d', h.symm⟩
  · intro x hx
    obtain ⟨d', _, h⟩ := List.mem_map.mp hx
    exact ⟨d', h.symm⟩
  · intro x hx
    obtain ⟨d', _, h⟩ := List.mem_map.mp hx
    exact ⟨d', h.symm⟩
  · intro x hx
    obtain ⟨d', _, h⟩ := List.mem_map.mp hx
    exact ⟨d', h.symm⟩
  · intro out hout
    unfold get_blog at hout
    cases h : get_documents store "blogpost" [("slug", .str slug)] 1 with
    | nil => rw [h] at hout; exact absurd hout (by simp)
    | cons d0 t =>
      rw [h] at hout
      simp only [Except.ok.injEq] at hout
      exact ⟨d0, hout.symm⟩

/-- C6, witness: the amended serialization facts at concrete documents. -/
theorem serialize_doc_spec_witness :
    serialize_doc (some [("a", .num 1)]) = some [("a", .num 1)] ∧
    Doc.lookup (serializeDocSome [("_id", .str "abc"), ("t", .num 2)]) "id"
      = some (.str "abc") ∧
    Doc.lookup (serializeDocSome [("_id", .str "abc"), ("t", .num 2)]) "_id" = none ∧
    Doc.lookup (serializeDocSome [("_id", .str "abc"), ("t", .num 2)]) "t"
      = some (.num 2) := by
  have h := serialize_doc_spec [("_id", .str "abc"), ("t", .num 2)] "t"
    ⟨fun _ => []⟩ none none 0 ""
  have h' := serialize_doc_spec [("a", .num 1)] "a" ⟨fun _ => []⟩ none none 0 ""
  exact ⟨h'.2.1 rfl, (h.2.2.1 rfl).1, (h.2.2.1 rfl).2 (by simp [Doc.keys]),
         h.2.2.2.1 (by decide) (by decide)⟩

/-- C4: with no explicit `published` parameter the blog list uses the
FastAPI default `published = True`, so the storage query filters on
`published = true` and only documents whose `published` field is `true`
come back; an explicit value `b` (including `false`) replaces the default
and only documents whose `published` field equals `b` come back. -/
theorem list_blog_published_filter (store : Store) (limit : Int) (b : Bool) (x : Doc) :
    list_blog store = list_blog store (some true) 50 ∧
    (x ∈ list_blog store (some true) limit →
      Doc.lookup x "published" = some (.bool true)) ∧
    (x ∈ list_blog store (some b) limit →
      Doc.lookup x "published" = some (.bool b)) := by
  have key : ∀ (b' : Bool), x ∈ list_blog store (some b') limit →
      Doc.lookup x "published" = some (.bool b') := by
    intro b' hx
    unfold list_blog at hx
    obtain ⟨d, hd, rfl⟩ := List.mem_map.mp hx
    obtain ⟨_, hm⟩ := mem_get_documents hd
    obtain ⟨w, hw, hbw⟩ := (matchesFilter_singleton _ _ _).mp hm
    have hwb := (JVal.beq_bool_iff w b').mp hbw
    subst hwb
    rw [lookup_serializeDocSome_ne _ _ (by decide) (by decide), hw]
  exact ⟨rfl, key true, key b⟩

/-- C4, witness: a store whose `blogpost` collection holds one published
and one unpublished post; the defaulted listing yields the published one
and its `published` field is `true`, the explicit `published=false`
listing yields the unpublished one. -/
theorem list_blog_published_filter_witness :
    Doc.lookup [("slug", .str "a"), ("published", .bool true)] "published"
      = some (.bool true) ∧
    Doc.lookup [("slug", .str "b"), ("published", .bool false)] "published"
      = some (.bool false) := by
  have hs : Store := ⟨fun _ => []⟩
  refine ⟨?_, ?_⟩
  · have h := (list_blog_published_filter
      ⟨fun c => if c = "blogpost" then
         [[("slug", .str "a"), ("published", .bool true)],
          [("slug", .str "b"), ("published", .bool false)]] else []⟩
      50 true [("slug", .str "a"), ("published", .bool true)]).2.1
    apply h
    have he : list_blog
        ⟨fun c => if c = "blogpost" then
           [[("slug", .str "a"), ("published", .bool true)],
            [("slug", .str "b"), ("published", .bool false)]] else []⟩
        (some true) 50
        = [[("slug", .str "a"), ("published", .bool true)]] := rfl
    rw [he]
    exact List.mem_singleton_self _
  · have h := (list_blog_published_filter
      ⟨fun c => if c = "blogpost" then
         [[("slug", .str "a"), ("published", .bool true)],
          [("slug", .str "b"), ("published", .bool false)]] else []⟩
      50 false [("slug", .str "b"), ("published", .bool false)]).2.2
    apply h
    have he : list_blog
        ⟨fun c => if c = "blogpost" then
           [[("slug", .str "a"), ("published", .bool true)],
            [("slug", .str "b"), ("published", .bool false)]] else []⟩
        (some false) 50
        = [[("slug", .str "b"), ("published", .bool false)]] := rfl
    rw [he]
    exact List.mem_singleton_self _

/-- C5: no list endpoint ever returns more documents than the requested
`limit`, and with the limit omitted each endpoint is bounded by its
declared default ceiling — 50 for projects, testimonials and blog, 100
for guestbook and bucket, 200 for uses. -/
theorem list_endpoints_respect_limit (store : Store)
    (featured published : Option Bool) (limit : Int) :
    (list_projects store featured limit).length ≤ limit.toNat ∧
    (list_testimonials store limit).length ≤ limit.toNat ∧
    (list_guestbook store limit).length ≤ limit.toNat ∧
    (list_bucket store limit).length ≤ limit.toNat ∧
    (list_uses store limit).length ≤ limit.toNat ∧
    (list_blog store published limit).length ≤ limit.toNat ∧
    (list_projects store featured).length ≤ 50 ∧
    (list_testimonials store).length ≤ 50 ∧
    (list_guestbook store).length ≤ 100 ∧
    (list_bucket store).length ≤ 100 ∧
    (list_uses store).length ≤ 200 ∧
    (list_blog store published).length ≤ 50 := by
  have key : ∀ (c : String) (f : Doc) (l : Int),
      ((get_documents store c f l).map serializeDocSome).length ≤ l.toNat := by
    intro c f l
    rw [List.length_map]
    exact length_get_documents_le store c f l
  exact ⟨key _ _ _, key _ _ _, key _ _ _, key _ _ _, key _ _ _, key _ _ _,
         key _ _ _, key _ _ _, key _ _ _, key _ _ _, key _ _ _, key _ _ _⟩

/-- C8: fetching a blog post by slug answers 404 with no document body
when no stored `blogpost` document has that exact slug, and otherwise
returns exactly one serialized document whose slug is the requested one. -/
theorem get_blog_spec (store : Store) (slug : String) :
    ((∀ d ∈ store.colls "blogpost", Doc.lookup d "slug" ≠ some (.str slug)) →
      get_blog store slug = .error (.http 404 "Post not found")) ∧
    ((∃ d ∈ store.colls "blogpost", Doc.lookup d "slug" = some (.str slug)) →
      ∃ d₀, d₀ ∈ store.colls "blogpost" ∧
        Doc.lookup d₀ "slug" = some (.str slug) ∧
        get_blog store slug = .ok (serializeDocSome d₀) ∧
        Doc.lookup (serializeDocSome d₀) "slug" = some (.str slug)) := by
  constructor
  · intro habs
    have hnil : (store.colls "blogpost").filter
        (matchesFilter [("slug", .str slug)]) = [] := by
      rw [List.filter_eq_nil_iff]
      intro d hd hm
      obtain ⟨w, hw, hbw⟩ := (matchesFilter_singleton _ _ _).mp hm
      have hws := (JVal.beq_str_iff w slug).mp hbw
      subst hws
      exact habs d hd hw
    unfold get_blog get_documents
    rw [hnil]
    rfl
  · intro ⟨d, hd, hslug⟩
    have hmem : d ∈ (store.colls "blogpost").filter
        (matchesFilter [("slug", .str slug)]) := by
      rw [List.mem_filter]
      refine ⟨hd, (matchesFilter_singleton _ _ _).mpr ⟨.str slug, hslug, ?_⟩⟩
      simp [JVal.beq]
    cases hfil : (store.colls "blogpost").filter
        (matchesFilter [("slug", .str slug)]) with
    | nil => rw [hfil] at hmem; exact absurd hmem (List.not_mem_nil d)
    | cons d₀ t =>
      have hd₀ : d₀ ∈ (store.colls "blogpost").filter
          (matchesFilter [("slug", .str slug)]) := by
        rw [hfil]; exact List.mem_cons_self _ _
      obtain ⟨hd₀mem, hd₀match⟩ := List.mem_filter.mp hd₀
      obtain ⟨w, hw, hbw⟩ := (matchesFilter_singleton _ _ _).mp hd₀match
      have hws := (JVal.beq_str_iff w slug).mp hbw
      subst hws
      refine ⟨d₀, hd₀mem, hw, ?_, ?_⟩
      · unfold get_blog get_documents
        rw [hfil]
        rfl
      · rw [lookup_serializeDocSome_ne _ _ (by decide) (by decide)]
        exact hw

/-- C8, witness: a slug with no match answers 404; a present slug is
returned serialized. -/
theorem get_blog_spec_witness :
    get_blog ⟨fun _ => []⟩ "missing" = .error (.http 404 "Post not found") ∧
    get_blog ⟨fun c => if c = "blogpost" then
        [[("slug", .str "hello"), ("title", .str "T")]] else []⟩ "hello"
      = .ok (serializeDocSome [("slug", .str "hello"), ("title", .str "T")]) := by
  constructor
  · exact (get_blog_spec ⟨fun _ => []⟩ "missing").1 (by simp)
  · obtain ⟨d₀, hmem, _, heq, _⟩ :=
      (get_blog_spec ⟨fun c => if c = "blogpost" then
          [[("slug", .str "hello"), ("title", .str "T")]] else []⟩ "hello").2
        ⟨[("slug", .str "hello"), ("title", .str "T")], by simp, rfl⟩
    simp at hmem
    rw [hmem] at heq
    exact heq

theorem validateContact_email_invalid (payload : Doc) (e : String)
    (he : Doc.lookup payload "email" = some (.str e)) (hv : validEmail e = false) :
    ∃ errs, validateContact payload = .error errs ∧
      "email: value is not a valid email address" ∈ errs := by
  have h1 : checkRequiredStr payload "email" = .ok ("email", .str e) := by
    unfold checkRequiredStr
    rw [he]
  cases hn : checkRequiredStr payload "name" <;>
    cases hm : checkRequiredStr payload "message" <;>
      cases hs : checkOptionalStr payload "subject" <;>
        cases hc : checkOptionalStr payload "source" <;>
          · simp only [validateContact, h1, hn, hm, hs, hc, hv, if_false, errsOf]
            exact ⟨_, rfl, by simp⟩

/-- C7: a contact payload whose `email` string is not syntactically valid
fails validation with a per-field error naming `email`, and the store is
left unchanged (no document created); a payload passing validation
creates exactly one new document in the `contactmessage` collection and
the response carries the new identifier together with the
`status: received` acknowledgment. -/
theorem contact_spec (store : Store) (payload : Doc) (e : String) :
    (Doc.lookup payload "email" = some (.str e) → validEmail e = false →
      ∃ errs, contact store payload = (.error errs, store) ∧
        "email: value is not a valid email address" ∈ errs) ∧
    (∀ v, validateContact payload = .ok v →
      (contact store payload).1
        = .ok [("id", .str (toString (store.colls "contactmessage").length)),
               ("status", .str "received")] ∧
      ((contact store payload).2.colls "contactmessage").length
        = (store.colls "contactmessage").length + 1) := by
  constructor
  · intro he hv
    obtain ⟨errs, herr, hmem⟩ := validateContact_email_invalid payload e he hv
    refine ⟨errs, ?_, hmem⟩
    unfold contact
    rw [herr]
  · intro v hok
    unfold contact create_document
    rw [hok]
    exact ⟨rfl, by simp⟩

/-- C7, witness: an invalid email is rejected with the store untouched; a
valid payload is stored and acknowledged. -/
theorem contact_spec_witness :
    contact ⟨fun _ => []⟩
        [("name", .str "A"), ("email", .str "not-an-email"), ("message", .str "hi")]
      = (.error ["email: value is not a valid email address"], ⟨fun _ => []⟩) ∧
    (contact ⟨fun _ => []⟩
        [("name", .str "A"), ("email", .str "a@b.co"), ("message", .str "hi")]).1
      = .ok [("id", .str "0"), ("status", .str "received")] ∧
    ((contact ⟨fun _ => []⟩
        [("name", .str "A"), ("email", .str "a@b.co"), ("message", .str "hi")]).2.colls
        "contactmessage").length = 1 := by
  obtain ⟨errs, -, -⟩ :=
    (contact_spec ⟨fun _ => []⟩
      [("name", .str "A"), ("email", .str "not-an-email"), ("message", .str "hi")]
      "not-an-email").1 rfl (by decide)
  obtain ⟨hok, hlen⟩ :=
    (contact_spec ⟨fun _ => []⟩
      [("name", .str "A"), ("email", .str "a@b.co"), ("message", .str "hi")]
      "a@b.co").2
      [("name", .str "A"), ("email", .str "a@b.co"), ("message", .str "hi"),
       ("subject", .null), ("source", .null)] rfl
  exact ⟨rfl, hok, hlen⟩

/-- C9: the `/test` diagnostic never raises — for the database dependency
absent, erroring, or working it yields a plain response: the failure
message is rendered (truncated to 80 characters) into the `database`
status string, and at most 10 collection names are listed. -/
theorem test_database_spec (u n : Option String) (db : DbOutcome)
    (e : String) (names : List String) :
    (test_database u n db).collections.length ≤ 10 ∧
    (test_database u n db).backend = "✅ Running" ∧
    (test_database u n none).database = "❌ Not Available" ∧
    (test_database u n none).connection_status = "Not Connected" ∧
    (test_database u n (some (.error e))).database
      = "⚠️ Connected but error: " ++ e.take 80 ∧
    (test_database u n (some (.error e))).collections = [] ∧
    (test_database u n (some (.ok names))).database = "✅ Connected & Working" ∧
    (test_database u n (some (.ok names))).connection_status = "Connected" ∧
    (test_database u n (some (.ok names))).collections = names.take 10 := by
  refine ⟨?_, ?_, rfl, rfl, rfl, rfl, rfl, rfl, rfl⟩
  · cases db with
    | none => simp [test_database]
    | some r =>
      cases r with
      | error e => simp [test_database]
      | ok ns =>
        simp only [test_database, List.length_take]
        omega
  · cases db with
    | none => rfl
    | some r => cases r <;> rfl

theorem github_repos_trace (fetch : String → HttpResp) (user : String) (limit : Int) :
    (github_repos fetch user limit).2 = [reposURL user (min limit 100)] := by
  unfold github_repos
  dsimp only
  split
  · rfl
  · split <;> rfl

/-- C1: `github_stats` failure handling is asymmetric.  A non-200 profile
fetch makes the operation fail with exactly the upstream status code and
body, and the repo-list URL is never fetched (the request trace holds the
profile URL alone); a 200 profile fetch (bearing a JSON object) followed
by a non-200 repo-list fetch still succeeds, with `stars = 0`. -/
theorem github_stats_failure_asymmetry (fetch : String → HttpResp) (user : String)
    (data : List (String × JVal)) :
    ((fetch (userURL user)).status ≠ 200 →
      github_stats fetch user
        = (.error (.http (fetch (userURL user)).status (fetch (userURL user)).text),
           [userURL user])) ∧
    ((fetch (userURL user)).status = 200 →
      (fetch (userURL user)).json = .obj data →
      (fetch (statsReposURL user)).status ≠ 200 →
      github_stats fetch user
        = (.ok { followers := Doc.getD data "followers" (.num 0),
                 public_repos := Doc.getD data "public_repos" (.num 0),
                 stars := 0 }, [userURL user, statsReposURL user])) := by
  constructor
  · intro h
    simp [github_stats, h]
  · intro h200 hjson hrepos
    simp [github_stats, h200, hjson, hrepos]

/-- Fixture: an upstream for which every request answers 404. -/
def fetchAll404 : String → HttpResp := fun _ => ⟨404, "Not Found", .null⟩

/-- Fixture: profile fetch succeeds, repo-list fetch fails with 500. -/
def fetchNoRepos : String → HttpResp := fun url =>
  if url = statsReposURL "octo" then ⟨500, "boom", .null⟩
  else ⟨200, "", .obj [("followers", .num 5), ("public_repos", .num 7)]⟩

/-- Fixture: profile and repo-list fetches both succeed; one repo has 3
stars, the other carries no `stargazers_count` field. -/
def fetchStatsOk : String → HttpResp := fun url =>
  if url = statsReposURL "octo" then
    ⟨200, "", .arr [.obj [("stargazers_count", .num 3)], .obj [("name", .str "x")]]⟩
  else ⟨200, "", .obj [("followers", .num 5), ("public_repos", .num 7)]⟩

/-- C1, witness: the asymmetry at concrete upstreams. -/
theorem github_stats_failure_asymmetry_witness :
    github_stats fetchAll404 "octo"
      = (.error (.http 404 "Not Found"), [userURL "octo"]) ∧
    github_stats fetchNoRepos "octo"
      = (.ok { followers := .num 5, public_repos := .num 7, stars := 0 },
         [userURL "octo", statsReposURL "octo"]) := by
  constructor
  · exact (github_stats_failure_asymmetry fetchAll404 "octo" []).1 (by decide)
  · exact (github_stats_failure_asymmetry fetchNoRepos "octo"
      [("followers", .num 5), ("public_repos", .num 7)]).2 (by decide) rfl (by decide)

/-- C2: when both fetches succeed, `github_stats` answers exactly
`{followers, public_repos, stars}` with `followers` and `public_repos`
taken from the profile JSON (default 0 when missing) and `stars` the sum
of the repositories' star counts, a missing `stargazers_count` counting
as zero; the repo-list request itself is the first-100,
most-recently-updated page (`per_page=100&sort=updated` in the traced
URL). -/
theorem github_stats_success (fetch : String → HttpResp) (user : String)
    (data : List (String × JVal)) (items : List JVal) (counts : List Int) :
    (fetch (userURL user)).status = 200 →
    (fetch (userURL user)).json = .obj data →
    (fetch (statsReposURL user)).status = 200 →
    (fetch (statsReposURL user)).json = .arr items →
    List.Forall₂ starRel items counts →
    github_stats fetch user
      = (.ok { followers := Doc.getD data "followers" (.num 0),
               public_repos := Doc.getD data "public_repos" (.num 0),
               stars := counts.sum }, [userURL user, statsReposURL user]) := by
  intro h1 h2 h3 h4 h5
  have hsum : ((items.mapM starOf).bind fun cs => some cs.sum) = some counts.sum := by
    rw [mapM_starOf h5]
    rfl
  have hsum2 : ((List.mapM.loop starOf items []).bind fun cs => some cs.sum)
      = some counts.sum := hsum
  simp [github_stats, h1, h2, h3, h4, sumStars, pyIterate, hsum2]

/-- C2, witness: profile `{followers: 5, public_repos: 7}` and repos with
star counts 3 and missing give `{followers: 5, public_repos: 7, stars: 3}`. -/
theorem github_stats_success_witness :
    github_stats fetchStatsOk "octo"
      = (.ok { followers := .num 5, public_repos := .num 7, stars := 3 },
         [userURL "octo", statsReposURL "octo"]) := by
  have h := github_stats_success fetchStatsOk "octo"
    [("followers", .num 5), ("public_repos", .num 7)]
    [.obj [("stargazers_count", .num 3)], .obj [("name", .str "x")]]
    [3, 0] rfl rfl rfl rfl
    (List.Forall₂.cons ⟨[("stargazers_count", .num 3)], rfl, Or.inl rfl⟩
      (List.Forall₂.cons ⟨[("name", .str "x")], rfl, Or.inr ⟨rfl, rfl⟩⟩
        List.Forall₂.nil))
  exact h

/-- C3: `github_repos` requests exactly `min(limit, 100)` repositories
(the page size in the single traced URL), surfaces the exact upstream
status and body on a non-200 answer, and on success maps each returned
repository to exactly the nine projection fields, so when the upstream
honours the page size the result has at most `min(limit, 100)` entries. -/
theorem github_repos_spec (fetch : String → HttpResp) (user : String) (limit : Int)
    (items : List JVal) :
    (github_repos fetch user limit).2 = [reposURL user (min limit 100)] ∧
    ((fetch (reposURL user (min limit 100))).status ≠ 200 →
      (github_repos fetch user limit).1
        = .error (.http (fetch (reposURL user (min limit 100))).status
                        (fetch (reposURL user (min limit 100))).text)) ∧
    ((fetch (reposURL user (min limit 100))).status = 200 →
      (fetch (reposURL user (min limit 100))).json = .arr items →
      (∀ r ∈ items, ∃ fs, r = .obj fs) →
      ∃ out, (github_repos fetch user limit).1 = .ok out ∧
        out.length = items.length ∧
        (items.length ≤ (min limit 100).toNat → out.length ≤ (min limit 100).toNat) ∧
        ∀ m ∈ out, Doc.keys m
          = ["name", "full_name", "description", "html_url", "language",
             "stargazers_count", "forks_count", "topics", "homepage"]) := by
  refine ⟨github_repos_trace fetch user limit, ?_, ?_⟩
  · intro h
    simp [github_repos, h]
  · intro h200 hjson hobj
    have hsome : ∀ r ∈ items, (projectRepo r).isSome := by
      intro r hr
      obtain ⟨fs, rfl⟩ := hobj r hr
      simp [projectRepo]
    obtain ⟨out, ho, hl, hm⟩ := mapM_option_total projectRepo items hsome
    have ho2 : List.mapM.loop projectRepo items [] = some out := ho
    refine ⟨out, ?_, hl, fun hle => hl ▸ hle, fun m hmem => ?_⟩
    · simp [github_repos, h200, hjson, pyIterate, ho2]
    · obtain ⟨r, _, hpr⟩ := hm m hmem
      exact keys_projectRepo hpr

/-- Fixture: an upstream for which every request answers 503. -/
def fetchAll503 : String → HttpResp := fun _ => ⟨503, "unavailable", .null⟩

/-- Fixture: an upstream returning a single repository object carrying an
extra field that the projection must drop. -/
def fetchOneRepo : String → HttpResp := fun _ =>
  ⟨200, "", .arr [.obj [("name", .str "r1"), ("private", .bool false)]]⟩

/-- C3, witness: upstream failure surfaces 503 and its body; a successful
listing of one repository gives one nine-field projection. -/
theorem github_repos_spec_witness :
    (github_repos fetchAll503 "u" 5).1 = .error (.http 503 "unavailable") ∧
    (github_repos fetchOneRepo "u" 5).1
      = .ok [[("name", .str "r1"), ("full_name", .null), ("description", .null),
              ("html_url", .null), ("language", .null), ("stargazers_count", .null),
              ("forks_count", .null), ("topics", .arr []), ("homepage", .null)]] ∧
    Doc.keys [("name", JVal.str "r1"), ("full_name", .null), ("description", .null),
              ("html_url", .null), ("language", .null), ("stargazers_count", .null),
              ("forks_count", .null), ("topics", .arr []), ("homepage", .null)]
      = ["name", "full_name", "description", "html_url", "language",
         "stargazers_count", "forks_count", "topics", "homepage"] := by
  refine ⟨(github_repos_spec fetchAll503 "u" 5 []).2.1 (by decide), ?_, ?_⟩
  · obtain ⟨out, h1, -, -, -⟩ :=
      (github_repos_spec fetchOneRepo "u" 5
        [.obj [("name", .str "r1"), ("private", .bool false)]]).2.2 rfl rfl
        (by intro r hr
            simp at hr
            exact ⟨_, hr⟩)
    have heval : (github_repos fetchOneRepo "u" 5).1
        = .ok [[("name", .str "r1"), ("full_name", .null), ("description", .null),
                ("html_url", .null), ("language", .null), ("stargazers_count", .null),
                ("forks_count", .null), ("topics", .arr []), ("homepage", .null)]] := rfl
    exact heval
  · obtain ⟨out, h1, -, -, hkeys⟩ :=
      (github_repos_spec fetchOneRepo "u" 5
        [.obj [("name", .str "r1"), ("private", .bool false)]]).2.2 rfl rfl
        (by intro r hr
            simp at hr
            exact ⟨_, hr⟩)
    have heval : (github_repos fetchOneRepo "u" 5).1
        = .ok [[("name", .str "r1"), ("full_name", .null), ("description", .null),
                ("html_url", .null), ("language", .null), ("stargazers_count", .null),
                ("forks_count", .null), ("topics", .arr []), ("homepage", .null)]] := rfl
    have hout : out
        = [[("name", .str "r1"), ("full_name", .null), ("description", .null),
            ("html_url", .null), ("language", .null), ("stargazers_count", .null),
            ("forks_count", .null), ("topics", .arr []), ("homepage", .null)]] := by
      have := h1.symm.trans heval
      exact Except.ok.inj this
    exact hkeys _ (hout ▸ List.mem_cons_self _ _)

/-- C10: called without a `limit` the repo listing defaults to 12; the
page size forwarded upstream is exactly `min(limit, 100)` — values above
100 are capped at 100 while zero and negative values are forwarded
unchanged. -/
theorem github_repos_limit_policy (fetch : String → HttpResp) (user : String)
    (limit : Int) :
    (github_repos fetch user).2 = [reposURL user 12] ∧
    (github_repos fetch user limit).2 = [reposURL user (min limit 100)] ∧
    (100 < limit → min limit 100 = 100) ∧
    (limit ≤ 0 → min limit 100 = limit) := by
  refine ⟨?_, github_repos_trace fetch user limit, fun h => ?_, fun h => ?_⟩
  · have h := github_repos_trace fetch user 12
    simpa using h
  · omega
  · omega

/-- C10, witness: limits 150, -3 and the default at a concrete upstream. -/
theorem github_repos_limit_policy_witness :
    (github_repos fetchOneRepo "u" 150).2 = [reposURL "u" 100] ∧
    (github_repos fetchOneRepo "u" (-3)).2 = [reposURL "u" (-3)] ∧
    (github_repos fetchOneRepo "u").2 = [reposURL "u" 12] := by
  have h150 := github_repos_limit_policy fetchOneRepo "u" 150
  have hneg := github_repos_limit_policy fetchOneRepo "u" (-3)
  refine ⟨?_, ?_, h150.1⟩
  · have := h150.2.1
    rw [h150.2.2.1 (by norm_num)] at this
    exact this
  · have := hneg.2.1
    rw [hneg.2.2.2 (by norm_num)] at this
    exact this
